import Mathlib

/-!
Shallow embedding of the chapter-performance CRUD backend
(controllers/chapterController.js, validators/chapterValidator.js,
middleware/cache.js, middleware/rateLimiter.js, config/redis.js) and proofs
about its bulk-write pipeline, cache keys, rate limiter and statistics
aggregation.
-/

/-- A JSON-like value as delivered by the HTTP body parser.  Numbers are
modelled as integers: every numeric field of the schema is validated with
`Joi.number().integer()`, and no claim depends on non-integer numerics. -/
inductive Json where
  | str (s : String)
  | num (n : Int)
  | bool (b : Bool)
  | null
  | arr (elems : List Json)
  | obj (fields : List (String × Json))
deriving Repr, BEq

/-- One field-level validation error, as produced by mapping Joi's
`error.details` to `\x7bfield, message, value\x7d` in chapterValidator.js. -/
structure FieldError where
  field : String
  message : String
  value : Option Json
deriving Repr, BEq

/-- The `yearWiseQuestionCount` sub-document after validation: every year key
2019..2025 is present (missing keys were defaulted to 0 by the Joi schema). -/
structure YearWiseQuestionCount where
  y2019 : Int
  y2020 : Int
  y2021 : Int
  y2022 : Int
  y2023 : Int
  y2024 : Int
  y2025 : Int
deriving Repr, DecidableEq

/-- A chapter record after successful validation (the `value` returned by
`chapterSchema.validate`), mirroring the Joi schema of chapterValidator.js. -/
structure Chapter where
  subject : String
  chapter : String
  «class» : String
  unit : String
  yearWiseQuestionCount : YearWiseQuestionCount
  questionSolved : Int
  status : String
  isWeakChapter : Bool
deriving Repr, DecidableEq

/-- Lookup of a key in a parsed JSON object (JavaScript property access). -/
def jsonLookup (fields : List (String × Json)) (k : String) : Option Json :=
  (fields.find? (fun p => p.1 == k)).map (fun p => p.2)

/-- JavaScript `String.prototype.trim` (as invoked by Joi's `trim()` with
`convert: true`), written directly on the character list: leading and trailing
whitespace is removed. -/
def jsTrim (s : String) : String :=
  String.mk (((s.data.dropWhile Char.isWhitespace).reverse.dropWhile Char.isWhitespace).reverse)

/-- `Joi.string().trim().min(1).max(maxLen).required()` on an optional field
value, with `convert: true` (the value is trimmed before the length checks).
Non-strings are not coerced by Joi's string type. -/
def validateString (fieldName : String) (maxLen : Nat) (emptyMsg maxMsg reqMsg : String)
    (v : Option Json) : Except FieldError String :=
  match v with
  | none => .error { field := fieldName, message := reqMsg, value := none }
  | some (.str s) =>
    let t := jsTrim s
    if t = "" then
      .error { field := fieldName, message := emptyMsg, value := some (.str s) }
    else if maxLen < t.length then
      .error { field := fieldName, message := maxMsg, value := some (.str s) }
    else
      .ok t
  | some j => .error { field := fieldName, message := fieldName ++ " must be a string", value := some j }

/-- Joi number coercion with `convert: true`: numbers pass through, numeric
strings are converted.  Only integers are representable (see `Json`). -/
def coerceNumber : Json → Option Int
  | .num n => some n
  | .str s => s.toInt?
  | _ => none

/-- `Joi.number().integer().min(0)` on a field value that is present. -/
def validateNonNegIntValue (fieldName minMsg : String) (j : Json) : Except FieldError Int :=
  match coerceNumber j with
  | some n =>
    if n < 0 then .error { field := fieldName, message := minMsg, value := some j }
    else .ok n
  | none => .error { field := fieldName, message := fieldName ++ " must be a number", value := some j }

/-- One year key of the `yearWiseQuestionCount` schema:
`Joi.number().integer().min(0).default(0)` — a missing key defaults to 0. -/
def validateYearField (yearKey : String) (fields : List (String × Json)) : Except FieldError Int :=
  match jsonLookup fields yearKey with
  | none => .ok 0
  | some j =>
    validateNonNegIntValue ("yearWiseQuestionCount." ++ yearKey)
      ("yearWiseQuestionCount." ++ yearKey ++ " must be greater than or equal to 0") j

/-- Errors contributed by a single-error field result. -/
def errsOf {α : Type} : Except FieldError α → List FieldError
  | .ok _ => []
  | .error e => [e]

/-- Errors contributed by a multi-error field result. -/
def errsOfMany {α : Type} : Except (List FieldError) α → List FieldError
  | .ok _ => []
  | .error es => es

/-- The `yearWiseQuestionCount: yearWiseQuestionCountSchema` (required object;
each year 2019..2025 a non-negative integer defaulting to 0; unknown keys
stripped). All year errors are collected, `abortEarly: false`. -/
def validateYearWise (v : Option Json) : Except (List FieldError) YearWiseQuestionCount :=
  match v with
  | none => .error [{ field := "yearWiseQuestionCount",
                      message := "yearWiseQuestionCount is required", value := none }]
  | some (.obj fields) =>
    let r19 := validateYearField "2019" fields
    let r20 := validateYearField "2020" fields
    let r21 := validateYearField "2021" fields
    let r22 := validateYearField "2022" fields
    let r23 := validateYearField "2023" fields
    let r24 := validateYearField "2024" fields
    let r25 := validateYearField "2025" fields
    match r19, r20, r21, r22, r23, r24, r25 with
    | .ok a, .ok b, .ok c, .ok d, .ok e, .ok f, .ok g =>
      .ok { y2019 := a, y2020 := b, y2021 := c, y2022 := d, y2023 := e, y2024 := f, y2025 := g }
    | _, _, _, _, _, _, _ =>
      .error (errsOf r19 ++ errsOf r20 ++ errsOf r21 ++ errsOf r22 ++
              errsOf r23 ++ errsOf r24 ++ errsOf r25)
  | some j => .error [{ field := "yearWiseQuestionCount",
                        message := "yearWiseQuestionCount must be of type object", value := some j }]

/-- The `status` field: `Joi.string().valid(...).required()`. -/
def validateStatus (v : Option Json) : Except FieldError String :=
  match v with
  | none => .error { field := "status", message := "Status is required", value := none }
  | some (.str s) =>
    if s = "Not Started" ∨ s = "In Progress" ∨ s = "Completed" ∨ s = "Revision" then .ok s
    else .error { field := "status",
                  message := "Status must be one of: Not Started, In Progress, Completed, Revision",
                  value := some (.str s) }
  | some j => .error { field := "status",
                       message := "Status must be one of: Not Started, In Progress, Completed, Revision",
                       value := some j }

/-- The `isWeakChapter` field: `Joi.boolean().required()`; with `convert: true`
the strings "true"/"false" are coerced. -/
def validateIsWeak (v : Option Json) : Except FieldError Bool :=
  match v with
  | none => .error { field := "isWeakChapter", message := "isWeakChapter is required", value := none }
  | some (.bool b) => .ok b
  | some (.str "true") => .ok true
  | some (.str "false") => .ok false
  | some j => .error { field := "isWeakChapter", message := "isWeakChapter must be a boolean", value := some j }

/-- `chapterSchema.validate(chapter, \x7babortEarly: false, stripUnknown: true,
convert: true\x7d)`: every applicable field error is collected before failing;
unknown fields are stripped (only the schema's keys are read). -/
def chapterValidate (j : Json) : Except (List FieldError) Chapter :=
  match j with
  | .obj fields =>
    let subjectR := validateString "subject" 100 "Subject cannot be empty"
      "Subject cannot exceed 100 characters" "Subject is required" (jsonLookup fields "subject")
    let chapterR := validateString "chapter" 200 "Chapter name cannot be empty"
      "Chapter name cannot exceed 200 characters" "Chapter name is required" (jsonLookup fields "chapter")
    let classR := validateString "class" 50 "Class cannot be empty"
      "Class cannot exceed 50 characters" "Class is required" (jsonLookup fields "class")
    let unitR := validateString "unit" 100 "Unit cannot be empty"
      "Unit cannot exceed 100 characters" "Unit is required" (jsonLookup fields "unit")
    let yearR := validateYearWise (jsonLookup fields "yearWiseQuestionCount")
    let solvedR : Except FieldError Int :=
      match jsonLookup fields "questionSolved" with
      | none => Except.error { field := "questionSolved", message := "Questions solved is required",
                               value := none }
      | some v => validateNonNegIntValue "questionSolved" "Questions solved cannot be negative" v
    let statusR := validateStatus (jsonLookup fields "status")
    let weakR := validateIsWeak (jsonLookup fields "isWeakChapter")
    match subjectR, chapterR, classR, unitR, yearR, solvedR, statusR, weakR with
    | .ok s, .ok c, .ok cl, .ok u, .ok y, .ok q, .ok st, .ok w =>
      .ok { subject := s, chapter := c, «class» := cl, unit := u,
            yearWiseQuestionCount := y, questionSolved := q, status := st, isWeakChapter := w }
    | _, _, _, _, _, _, _, _ =>
      .error (errsOf subjectR ++ errsOf chapterR ++ errsOf classR ++ errsOf unitR ++
              errsOfMany yearR ++ errsOf solvedR ++ errsOf statusR ++ errsOf weakR)
  | _ => .error [{ field := "", message := "value must be of type object", value := some j }]

/-- An entry of the heterogeneous `failedChapters` list built by
`createChapters`: either a validation rejection pushed by
`validateChaptersArray` (shape `\x7bindex, chapter, errors\x7d` with the raw
JSON value), or a store-layer write fault pushed in the `bulkError` branch
(shape `\x7bindex, chapter, errors: [\x7bfield: "document", ...\x7d]\x7d`, where
`chapter` is `validChapters[writeError.index]`, possibly `undefined`). -/
inductive FailedEntry where
  | validation (index : Nat) (chapter : Json) (errors : List FieldError)
  | write (index : Nat) (chapter : Option Chapter) (message : String) (code : Option Int)
deriving Repr, BEq

/-- The `index` property of a `failedChapters` entry. -/
def FailedEntry.idx : FailedEntry → Nat
  | .validation i _ _ => i
  | .write i _ _ _ => i

/-- The per-item loop of `validateChaptersArray`
(`chapters.forEach((chapter, index) => ...)`) starting at position `i`:
each item goes to `validChapters` if `chapterSchema.validate` succeeds, else to
`invalidChapters` together with its position and the collected errors. -/
def partitionChaptersFrom (i : Nat) : List Json → List Chapter × List FailedEntry
  | [] => ([], [])
  | c :: rest =>
    let r := partitionChaptersFrom (i + 1) rest
    match chapterValidate c with
    | .ok value => (value :: r.1, r.2)
    | .error errs => (r.1, .validation i c errs :: r.2)

/-- The hard input-shape rejection of `validateChaptersArray`
(`res.status(400).json(\x7bstatus: "error", message: "Expected an array of chapters"\x7d)`). -/
structure ShapeError where
  status : String
  message : String
deriving Repr, DecidableEq

/-- `validateChaptersArray` on an already-parsed request body: a non-array
top-level shape is rejected outright; an array is partitioned item by item
into `req.validChapters` and `req.invalidChapters`. -/
def validateChaptersArray (body : Json) : Except ShapeError (List Chapter × List FailedEntry) :=
  match body with
  | .arr chapters => .ok (partitionChaptersFrom 0 chapters)
  | _ => .error { status := "error", message := "Expected an array of chapters" }

/-- A document returned by `Chapter.insertMany` (an inserted record: the
validated fields plus the store-assigned `_id`). -/
structure ChapterDoc where
  _id : String
  subject : String
  chapter : String
  «class» : String
  unit : String
  yearWiseQuestionCount : YearWiseQuestionCount
  questionSolved : Int
  status : String
  isWeakChapter : Bool
deriving Repr, DecidableEq

/-- One element of `bulkError.writeErrors` as read by `createChapters`
(`writeError.index`, `writeError.errmsg`, `writeError.code`). -/
structure WriteError where
  index : Nat
  errmsg : Option String
  code : Option Int
deriving Repr, DecidableEq

/-- An exception raised by `Chapter.insertMany`:
either a bulk-write error object carrying a (truthy) `writeErrors` array and
optionally `insertedDocs`, or any other error (no `writeErrors` property). -/
inductive JsError where
  | bulkWrite (writeErrors : List WriteError) (insertedDocs : Option (List ChapterDoc))
  | other (message : String)
deriving Repr, BEq

/-- The outcome of the `Chapter.insertMany(validChapters, \x7bordered: false\x7d)`
call: the store is an external collaborator, so its outcome is a parameter of
the pipeline. -/
inductive InsertManyResult where
  | ok (docs : List ChapterDoc)
  | err (e : JsError)
deriving Repr, BEq

/-- Whether `insertMany` returned without raising. -/
def InsertManyResult.isOk : InsertManyResult → Bool
  | .ok _ => true
  | .err _ => false

/-- The `bulkError.writeErrors.forEach((writeError, index) => failedChapters.push(...))`
loop of `createChapters`, with `i` the running forEach position: the pushed
entry carries `index: index` (the forEach position), while the chapter value is
`validChapters[writeError.index]` and the message is
`writeError.errmsg || "Database insertion failed"`. -/
def mergeWriteErrors (validChapters : List Chapter) : Nat → List WriteError → List FailedEntry
  | _, [] => []
  | i, we :: rest =>
    FailedEntry.write i validChapters[we.index]? (we.errmsg.getD "Database insertion failed") we.code
      :: mergeWriteErrors validChapters (i + 1) rest

/-- One element of `response.data.savedChapters`: the identifying fields
projected from an inserted document. -/
structure SavedChapterSummary where
  id : String
  subject : String
  chapter : String
  «class» : String
  unit : String
deriving Repr, DecidableEq

/-- The JSON response assembled by `createChapters`, together with the HTTP
status code it is sent with and whether `clearChapterCache()` was invoked
(the observable cache-invalidation effect). `failedChapters` is `some` exactly
when the list is non-empty (the `if (failedChapters.length > 0)` guard). -/
structure CreateChaptersResponse where
  statusCode : Nat
  status : String
  message : String
  savedCount : Nat
  failedCount : Nat
  savedChapters : List SavedChapterSummary
  failedChapters : Option (List FailedEntry)
  cacheCleared : Bool
deriving Repr, BEq

/-- `createChapters(req, res, next)` from the controller, as a function of
`req.validChapters`, `req.invalidChapters` and the outcome of the
`Chapter.insertMany` call.  A response is `Except.ok`; an error forwarded to
`next(error)` (the outer catch) is `Except.error`.  Control flow mirrors the
source: validation failures seed `failedChapters`; when `validChapters` is
empty the insert call is skipped; a raised bulk error with a `writeErrors`
property is folded into `failedChapters` and `insertedDocs || []` becomes the
saved list; any other raised error is rethrown. -/
def createChapters (validChapters : List Chapter) (invalidChapters : List FailedEntry)
    (insertMany : InsertManyResult) : Except JsError CreateChaptersResponse :=
  let step : Except JsError (List ChapterDoc × List FailedEntry × Bool) :=
    if validChapters.length > 0 then
      match insertMany with
      | .ok docs => .ok (docs, invalidChapters, true)
      | .err (.bulkWrite wes insertedDocs) =>
        .ok (insertedDocs.getD [], invalidChapters ++ mergeWriteErrors validChapters 0 wes, false)
      | .err e => .error e
    else
      .ok ([], invalidChapters, false)
  match step with
  | .error e => .error e
  | .ok (saved, failed, cleared) =>
    let savedCount := saved.length
    let failedCount := failed.length
    let baseMessage := toString savedCount ++ " chapters saved successfully"
    .ok {
      statusCode := if savedCount > 0 then 201 else 400
      status := if savedCount > 0 then "success" else "error"
      message :=
        if failedCount > 0 then
          baseMessage ++ ", " ++ toString failedCount ++ " chapters failed"
        else baseMessage
      savedCount := savedCount
      failedCount := failedCount
      savedChapters := saved.map (fun d =>
        { id := d._id, subject := d.subject, chapter := d.chapter,
          «class» := d.«class», unit := d.unit })
      failedChapters := if failedCount > 0 then some failed else none
      cacheCleared := cleared
    }

/-! ### Statistics aggregation (`getStatistics`) -/

/-- `Object.values(\x7b2019: 1, 2020: 1, ..., 2025: 1\x7d)` as evaluated by the
source: the property VALUES of the year literal object — seven 1s — not its
keys. -/
def yearObjectValues : List Nat := [1, 1, 1, 1, 1, 1, 1]

/-- The `$\x7byear\x7d` parts of the field paths `$yearWiseQuestionCount.$\x7byear\x7d`
built by the pipeline, with `year` ranging over `yearObjectValues`: the
sub-key "1" seven times, since the source maps over the object's values. -/
def yearPathKeys : List String :=
  yearObjectValues.map (fun year => toString year)

/-- Resolution of sub-field `key` of `yearWiseQuestionCount` against a stored
document: the sub-document persisted under the Mongoose schema has exactly the
fields 2019..2025; any other key is missing. -/
def yearFieldValue (y : YearWiseQuestionCount) (key : String) : Option Int :=
  if key = "2019" then some y.y2019
  else if key = "2020" then some y.y2020
  else if key = "2021" then some y.y2021
  else if key = "2022" then some y.y2022
  else if key = "2023" then some y.y2023
  else if key = "2024" then some y.y2024
  else if key = "2025" then some y.y2025
  else none

/-- The inner `$sum` of the statistics pipeline.  The extra bracket nesting in
the source leaves `$sum` with a single array-valued operand, which it
traverses; a missing field path becomes null inside the array literal and is
ignored as non-numeric (contributes 0).  Because the paths are
`$yearWiseQuestionCount.1` seven times (see `yearPathKeys`), every resolution
is missing and the sum is 0 for every stored document. -/
def yearWiseSum (y : YearWiseQuestionCount) : Int :=
  (yearPathKeys.map (fun key => (yearFieldValue y key).getD 0)).sum

/-- The per-document `$cond` of the `avgCompletionRate` accumulator:
if the year sum is greater than 0 (`$gt`), `questionSolved` divided by the
year sum (`$divide`) times 100 (`$multiply`); otherwise 0. -/
def docCompletionRate (d : ChapterDoc) : ℚ :=
  if 0 < yearWiseSum d.yearWiseQuestionCount then
    (d.questionSolved : ℚ) / (yearWiseSum d.yearWiseQuestionCount : ℚ) * 100
  else 0

/-- The `$avg` accumulator over the whole collection (`_id: null` group), with
the `stats[0] || \x7b... avgCompletionRate: 0\x7d` fallback for an empty
collection. -/
def avgCompletionRate (docs : List ChapterDoc) : ℚ :=
  if docs.length = 0 then 0
  else (docs.map docCompletionRate).sum / (docs.length : ℚ)

/-- The `overview.averageCompletionRate` field of the response:
`Math.round(result.avgCompletionRate || 0)` (JavaScript `Math.round` is
round-half-up, which is Mathlib's `round`; `x || 0` only replaces a zero by
zero). -/
def averageCompletionRate (docs : List ChapterDoc) : Int :=
  round (avgCompletionRate docs)

/-- The claim's per-record denominator, written from the spec's words: the sum
of the record's per-year question counts 2019..2025. -/
def specYearWiseSum (y : YearWiseQuestionCount) : Int :=
  y.y2019 + y.y2020 + y.y2021 + y.y2022 + y.y2023 + y.y2024 + y.y2025

/-- The claim's per-record formula, written from the spec's words: completion
rate = questionSolved divided by the sum of the per-year question counts times
100, with 0 substituted when that sum is 0. -/
def specCompletionRate (d : ChapterDoc) : ℚ :=
  if specYearWiseSum d.yearWiseQuestionCount = 0 then 0
  else (d.questionSolved : ℚ) / (specYearWiseSum d.yearWiseQuestionCount : ℚ) * 100

/-- The claim's aggregate, written from the spec's words: the average of the
per-record rates over all records (0 for an empty collection). -/
def specAverageCompletionRate (docs : List ChapterDoc) : ℚ :=
  if docs.length = 0 then 0
  else (docs.map specCompletionRate).sum / (docs.length : ℚ)

/-! ### Rate limiter (`middleware/rateLimiter.js`) -/

/-- `windowMs: 60 * 1000` (both limiters). -/
def rateLimiterWindowMs : Nat := 60 * 1000

/-- `max: 30` of the general limiter. -/
def rateLimiterMax : Nat := 30

/-- `max: 100` of the admin limiter. -/
def adminRateLimiterMax : Nat := 100

/-- `keyGenerator` of the general limiter: the client IP itself. -/
def rateLimiterKeyGenerator (ip : String) : String := ip

/-- `keyGenerator` of the admin limiter: the string `admin_` followed by the
client IP. -/
def adminRateLimiterKeyGenerator (ip : String) : String := "admin_" ++ ip

/-- The JSON body sent by a limiter's `handler` (and configured as `message`). -/
structure RateLimitErrorBody where
  status : String
  message : String
  retryAfter : Nat
deriving Repr, DecidableEq

/-- The body the general limiter's `handler` sends with status 429. -/
def rateLimiterHandlerBody : RateLimitErrorBody :=
  { status := "error"
    message := "Too many requests from this IP, please try again after a minute."
    retryAfter := 60 }

/-- The body the admin limiter's `handler` sends with status 429. -/
def adminRateLimiterHandlerBody : RateLimitErrorBody :=
  { status := "error"
    message := "Too many admin requests from this IP, please try again after a minute."
    retryAfter := 60 }

/-- Modelled from the spec: the per-identity fixed-window counter state kept in
the shared cache store.  The counting machinery lives in the external
`express-rate-limit` / `rate-limit-redis` packages, which are not part of this
repository; §4.5 specifies a fixed window of 60 seconds per identity key. -/
structure RateWindow where
  windowStartMs : Nat
  count : Nat
deriving Repr, DecidableEq

/-- Modelled from the spec: one request hitting the counter of its identity
key at time `nowMs` — an absent or expired window restarts at count 1,
otherwise the count is incremented. -/
def rateWindowHit (windowMs nowMs : Nat) (w : Option RateWindow) : RateWindow :=
  match w with
  | none => { windowStartMs := nowMs, count := 1 }
  | some w =>
    if w.windowStartMs + windowMs ≤ nowMs then { windowStartMs := nowMs, count := 1 }
    else { w with count := w.count + 1 }

/-- The remaining time of the current window, in seconds, at time `nowMs`. -/
def remainingWindowSec (windowMs nowMs : Nat) (w : RateWindow) : Nat :=
  (w.windowStartMs + windowMs - nowMs) / 1000

/-- The limiter's decision after the hit: when the window's count exceeds the
ceiling, the request is rejected and the configured `handler` sends status 429
with its fixed body; otherwise the request passes. -/
def rateLimitDecision (ceiling : Nat) (handlerBody : RateLimitErrorBody) (w : RateWindow) :
    Option (Nat × RateLimitErrorBody) :=
  if ceiling < w.count then some (429, handlerBody) else none

/-! ### Cache key generation and invalidation (`middleware/cache.js`,
`config/redis.js`) -/

/-- The part of an Express request that `generateCacheKey` reads.  `req.query`
is a parsed-query object: an association list with pairwise-distinct keys. -/
structure CacheRequest where
  method : String
  path : String
  query : List (String × String)

/-- Characters that `URLSearchParams` serialization leaves unescaped
(application/x-www-form-urlencoded). -/
def formUrlUnreserved (c : Char) : Bool :=
  c.isAlphanum || c = '*' || c = '-' || c = '.' || c = '_'

/-- An uppercase hexadecimal digit. -/
def hexDigitChar (n : Nat) : Char :=
  if n < 10 then Char.ofNat (48 + n) else Char.ofNat (55 + n)

/-- Percent-encoding of one byte. -/
def percentEncodeByte (b : UInt8) : String :=
  String.singleton '%' ++ String.singleton (hexDigitChar (b.toNat / 16)) ++
    String.singleton (hexDigitChar (b.toNat % 16))

/-- `application/x-www-form-urlencoded` serialization of one component, as
performed by `URLSearchParams.toString()`: spaces become `+`, unreserved
characters pass through, everything else is percent-encoded byte by byte
(UTF-8). -/
def formUrlEncode (s : String) : String :=
  String.join (s.data.map (fun c =>
    if c = ' ' then "+"
    else if formUrlUnreserved c then String.singleton c
    else String.join (((String.singleton c).toUTF8.toList).map percentEncodeByte)))

/-- JavaScript property access `req.query[key]` for a key taken from
`Object.keys(req.query)` (total on such keys; `""` is an unreachable default). -/
def queryLookup (query : List (String × String)) (k : String) : String :=
  ((query.find? (fun p => p.1 == k)).map (fun p => p.2)).getD ""

/-- `Object.keys(req.query).sort()`: the query's keys in ascending string
order (JavaScript's default sort compares strings). -/
def sortedQueryKeys (query : List (String × String)) : List String :=
  List.insertionSort (fun a b => a ≤ b) (query.map Prod.fst)

/-- `generateCacheKey(req)`: `chapters:METHOD:PATH`, and for a GET request
with a non-empty query, `?` followed by the serialized query rebuilt in
sorted-key order. -/
def generateCacheKey (req : CacheRequest) : String :=
  let baseKey := "chapters:" ++ req.method ++ ":" ++ req.path
  if req.method = "GET" ∧ 0 < req.query.length then
    let sortedQuery := (sortedQueryKeys req.query).map (fun k => (k, queryLookup req.query k))
    let queryString :=
      String.intercalate "&"
        (sortedQuery.map (fun p => formUrlEncode p.1 ++ "=" ++ formUrlEncode p.2))
    baseKey ++ "?" ++ queryString
  else baseKey

/-- Redis `KEYS`-style glob matching, restricted to the constructs that can
occur here: `*` matches any (possibly empty) sequence, `?` any single
character, any other character itself.  (Escapes and character classes do not
occur in the invalidation pattern.) -/
def globMatch : List Char → List Char → Bool
  | [], [] => true
  | [], _ :: _ => false
  | '*' :: ps, [] => globMatch ps []
  | '*' :: ps, c :: s => globMatch ps (c :: s) || globMatch ('*' :: ps) s
  | '?' :: _, [] => false
  | '?' :: ps, _ :: s => globMatch ps s
  | _ :: _, [] => false
  | p :: ps, c :: s => p == c && globMatch ps s

/-- The pattern `clearChapterCache` passes to `clearCachePattern`. -/
def chapterCachePattern : String := "chapters:*"

/-- `cache.delPattern(pattern)` from config/redis.js: `client.keys(pattern)`
followed by `client.del(keys)` — on a cache modelled by the list of its keys,
exactly the keys matching the glob pattern are removed. -/
def delPattern (pattern : String) (keys : List String) : List String :=
  keys.filter (fun k => !(globMatch pattern.data k.data))

/-- `clearChapterCache()`: bulk invalidation of the chapters namespace. -/
def clearChapterCache (keys : List String) : List String :=
  delPattern chapterCachePattern keys

/-! ### Concrete inputs used by counterexamples and witnesses -/

/-- A year-count sub-document: 5 questions in 2024, 0 elsewhere. -/
def exYears : YearWiseQuestionCount :=
  { y2019 := 0, y2020 := 0, y2021 := 0, y2022 := 0, y2023 := 0, y2024 := 5, y2025 := 0 }

/-- A validated chapter record. -/
def exChapterA : Chapter :=
  { subject := "Math", chapter := "Algebra", «class» := "Class 10", unit := "Unit 1",
    yearWiseQuestionCount := exYears, questionSolved := 0,
    status := "Not Started", isWeakChapter := false }

/-- A second validated chapter record, differing in the chapter name. -/
def exChapterB : Chapter :=
  { exChapterA with chapter := "Geometry" }

/-- The inserted document for `exChapterA`. -/
def exDocA : ChapterDoc :=
  { _id := "665f0a0a0a0a0a0a0a0a0a0a", subject := "Math", chapter := "Algebra",
    «class» := "Class 10", unit := "Unit 1", yearWiseQuestionCount := exYears,
    questionSolved := 0, status := "Not Started", isWeakChapter := false }

/-- A duplicate-key write fault for the item at insert-batch position 1. -/
def exDupWriteError : WriteError :=
  { index := 1, errmsg := some "E11000 duplicate key error", code := some 11000 }

/-- An `insertMany` outcome: the bulk error reports one write fault at batch
position 1 while the document at position 0 was persisted. -/
def exPartialInsert : InsertManyResult :=
  .err (.bulkWrite [exDupWriteError] (some [exDocA]))

/-- An `insertMany` outcome for a repeated batch of one record under the
uniqueness constraint: one duplicate-key fault, nothing persisted. -/
def exDupInsert : InsertManyResult :=
  .err (.bulkWrite [{ index := 0, errmsg := some "E11000 duplicate key error", code := some 11000 }]
    (some []))

/-- A raw JSON chapter object that passes validation. -/
def exGoodChapterJson : Json :=
  .obj [("subject", .str "Math"), ("chapter", .str "Algebra"),
        ("class", .str "Class 10"), ("unit", .str "Unit 1"),
        ("yearWiseQuestionCount", .obj [("2024", .num 5)]),
        ("questionSolved", .num 0), ("status", .str "Not Started"),
        ("isWeakChapter", .bool false)]

/-- A raw value that fails validation (not an object). -/
def exBadChapterJson : Json := .num 5

/-- A two-item batch: one valid item, one invalid item. -/
def exBatchJson : Json := .arr [exGoodChapterJson, exBadChapterJson]

/-- A stored document whose year counts sum to 3 with one question solved:
its completion rate 100/3 is not an integer. -/
def exStatsDoc : ChapterDoc :=
  { _id := "665f0b0b0b0b0b0b0b0b0b0b", subject := "Physics", chapter := "Optics",
    «class» := "Class 11", unit := "Unit 2",
    yearWiseQuestionCount :=
      { y2019 := 1, y2020 := 1, y2021 := 1, y2022 := 0, y2023 := 0, y2024 := 0, y2025 := 0 },
    questionSolved := 1, status := "In Progress", isWeakChapter := false }

/-- The response `createChapters` produces for the partial-success input
`exPartialInsert` (one record persisted, one duplicate-key fault). -/
def exC1Response : CreateChaptersResponse :=
  { statusCode := 201, status := "success",
    message := "1 chapters saved successfully, 1 chapters failed",
    savedCount := 1, failedCount := 1,
    savedChapters := [{ id := "665f0a0a0a0a0a0a0a0a0a0a", subject := "Math",
                        chapter := "Algebra", «class» := "Class 10", unit := "Unit 1" }],
    failedChapters := some [FailedEntry.write 0 (some exChapterB)
      "E11000 duplicate key error" (some 11000)],
    cacheCleared := false }

/-- The response `createChapters` produces for the repeated one-record batch
`exDupInsert` (nothing persisted, one duplicate-key fault). -/
def exDupResponse : CreateChaptersResponse :=
  { statusCode := 400, status := "error",
    message := "0 chapters saved successfully, 1 chapters failed",
    savedCount := 0, failedCount := 1, savedChapters := [],
    failedChapters := some [FailedEntry.write 0 (some exChapterA)
      "E11000 duplicate key error" (some 11000)],
    cacheCleared := false }

/-- The validation rejection entry produced for `exBadChapterJson` at batch
position 1. -/
def exC5Invalid : FailedEntry :=
  .validation 1 exBadChapterJson
    [{ field := "", message := "value must be of type object", value := some exBadChapterJson }]

/-- A fixed window that started at time 0 and has counted 31 requests. -/
def exRateWindow : RateWindow := { windowStartMs := 0, count := 31 }

/-- A GET request with two query parameters in one order. -/
def exReq1 : CacheRequest :=
  { method := "GET", path := "/", query := [("page", "1"), ("class", "Class 11")] }

/-- The same GET request with the query parameters in the other order. -/
def exReq2 : CacheRequest :=
  { method := "GET", path := "/", query := [("class", "Class 11"), ("page", "1")] }

/-! ### Helper lemmas -/

theorem mergeWriteErrors_length (valid : List Chapter) (i : Nat) (wes : List WriteError) :
    (mergeWriteErrors valid i wes).length = wes.length := by
  induction wes generalizing i with
  | nil => rfl
  | cons we rest ih => simp [mergeWriteErrors, ih]

theorem mergeWriteErrors_getElem (valid : List Chapter) (i k : Nat) (wes : List WriteError)
    (hk : k < wes.length) :
    (mergeWriteErrors valid i wes)[k]? =
      some (.write (i + k) valid[(wes[k]).index]?
        ((wes[k]).errmsg.getD "Database insertion failed") (wes[k]).code) := by
  induction wes generalizing i k with
  | nil => exact absurd hk (by simp)
  | cons we rest ih =>
    cases k with
    | zero => simp [mergeWriteErrors]
    | succ k =>
      have hk' : k < rest.length := by simpa using hk
      have harr : i + (k + 1) = (i + 1) + k := by omega
      simp only [mergeWriteErrors, List.getElem?_cons_succ, List.getElem_cons_succ, harr]
      exact ih (i + 1) k hk'

/-- Claim C1.  The claim states that each write fault merged into the
rejection list carries the failed item's position within the accepted-records
array (`writeError.index`); the code instead pushes `index: index`, the fault's
position within `bulkError.writeErrors`.  With two accepted records where only
the second one faults, the merged entry carries index 0 although the faulting
item sits at position 1 of the accepted array (and the entry's own chapter
value is taken from that position 1). -/
theorem C1_counterexample :
    createChapters [exChapterA, exChapterB] [] exPartialInsert = Except.ok exC1Response
    ∧ exC1Response.failedChapters =
        some [FailedEntry.write 0 (some exChapterB) "E11000 duplicate key error" (some 11000)]
    ∧ exDupWriteError.index = 1
    ∧ ([exChapterA, exChapterB] : List Chapter)[1]? = some exChapterB
    ∧ (0 : Nat) ≠ 1 :=
  ⟨rfl, rfl, rfl, rfl, by decide⟩

/-- Claim C1, amended.  When `insertMany` raises a bulk error with per-item
write faults, the k-th fault is appended to the rejection list carrying
`index = k` — its position within the reported `writeErrors` list — while the
attached chapter value is read from the accepted-records array at the fault's
insert-batch-local position `writeErrors[k].index`. -/
theorem C1_amended (valid : List Chapter) (invalid : List FailedEntry)
    (wes : List WriteError) (docs? : Option (List ChapterDoc))
    (r : CreateChaptersResponse) (k : Nat)
    (hv : 0 < valid.length) (hk : k < wes.length)
    (h : createChapters valid invalid (.err (.bulkWrite wes docs?)) = Except.ok r) :
    (r.failedChapters.getD [])[invalid.length + k]? =
      some (.write k valid[(wes[k]).index]?
        ((wes[k]).errmsg.getD "Database insertion failed") (wes[k]).code) := by
  unfold createChapters at h
  simp only [hv, if_pos] at h
  rw [Except.ok.injEq] at h
  subst h
  have hlen : 0 < (invalid ++ mergeWriteErrors valid 0 wes).length := by
    simp [mergeWriteErrors_length]
    omega
  simp only [hlen, if_pos, Option.getD_some]
  rw [List.getElem?_append_right (by omega)]
  have := mergeWriteErrors_getElem valid 0 k wes hk
  simpa using this

/-- Witness for C1_amended at the concrete partial-success input. -/
theorem C1_witness :
    (exC1Response.failedChapters.getD [])[0]? =
      some (.write 0 (some exChapterB) "E11000 duplicate key error" (some 11000)) :=
  C1_amended [exChapterA, exChapterB] [] [exDupWriteError] (some [exDocA]) exC1Response 0
    (by decide) (by decide) rfl

/-- Claim C2.  The claim states cache invalidation happens if and only if at
least one record was persisted.  In the partial-success path — `insertMany`
raises a bulk error whose `insertedDocs` is non-empty — a record was persisted
(savedCount = 1) yet `clearChapterCache()` is never reached, because the call
sits after `insertMany` inside the `try` block. -/
theorem C2_counterexample :
    createChapters [exChapterA, exChapterB] [] exPartialInsert = Except.ok exC1Response
    ∧ exC1Response.savedCount = 1
    ∧ exC1Response.cacheCleared = false :=
  ⟨rfl, rfl, rfl⟩

/-- Claim C2, amended.  The pattern-based bulk cache invalidation is performed
if and only if at least one valid record was submitted and `insertMany`
returned without raising; in particular it is skipped whenever `insertMany`
reports per-item write faults, even when records were persisted alongside. -/
theorem C2_amended (valid : List Chapter) (invalid : List FailedEntry)
    (ins : InsertManyResult) (r : CreateChaptersResponse)
    (h : createChapters valid invalid ins = Except.ok r) :
    r.cacheCleared = true ↔ (0 < valid.length ∧ ins.isOk = true) := by
  unfold createChapters at h
  by_cases hv : valid.length > 0
  · simp only [hv, if_pos] at h
    cases ins with
    | ok docs =>
      rw [Except.ok.injEq] at h
      subst h
      simp [InsertManyResult.isOk, hv]
    | err e =>
      cases e with
      | bulkWrite wes docs? =>
        rw [Except.ok.injEq] at h
        subst h
        simp [InsertManyResult.isOk]
      | other msg => exact absurd h (by simp)
  · simp only [hv, if_neg, if_false] at h
    rw [Except.ok.injEq] at h
    subst h
    simp [InsertManyResult.isOk]
    omega

/-- Witness for C2_amended at the concrete partial-success input. -/
theorem C2_witness :
    exC1Response.cacheCleared = true ↔
      (0 < ([exChapterA, exChapterB] : List Chapter).length ∧ exPartialInsert.isOk = true) :=
  C2_amended [exChapterA, exChapterB] [] exPartialInsert exC1Response rfl

/-- Claim C3.  The response's overall framing is success (HTTP 201) exactly
when at least one record was saved and error (HTTP 400) exactly when zero
records were saved, regardless of how many failed.  (The duplicate-batch
scenario of the claim — savedCount 0, failedCount 1, status error, 400 — is
exhibited by the witness below at `exDupInsert`.) -/
theorem C3_partial_success_framing (valid : List Chapter) (invalid : List FailedEntry)
    (ins : InsertManyResult) (r : CreateChaptersResponse)
    (h : createChapters valid invalid ins = Except.ok r) :
    ((r.status = "success" ∧ r.statusCode = 201) ↔ 0 < r.savedCount)
    ∧ ((r.status = "error" ∧ r.statusCode = 400) ↔ r.savedCount = 0) := by
  unfold createChapters at h
  by_cases hv : valid.length > 0
  · simp only [hv, if_pos] at h
    cases ins with
    | ok docs =>
      rw [Except.ok.injEq] at h
      subst h
      by_cases hs : docs.length > 0
      · simpa [hs] using List.ne_nil_of_length_pos hs
      · simpa [hs] using List.eq_nil_of_length_eq_zero (by omega)
    | err e =>
      cases e with
      | bulkWrite wes docs? =>
        rw [Except.ok.injEq] at h
        subst h
        by_cases hs : (docs?.getD []).length > 0
        · simpa [hs] using List.ne_nil_of_length_pos hs
        · simpa [hs] using List.eq_nil_of_length_eq_zero (by omega)
      | other msg => exact absurd h (by simp)
  · simp only [hv, if_neg, if_false] at h
    rw [Except.ok.injEq] at h
    subst h
    simp

/-- Witness for C3 at the repeated-batch input: the second POST of an
already-persisted one-record batch reports savedCount 0, failedCount 1,
status "error", HTTP 400, consistently with the framing rule. -/
theorem C3_witness :
    (createChapters [exChapterA] [] exDupInsert = Except.ok exDupResponse
      ∧ exDupResponse.savedCount = 0 ∧ exDupResponse.failedCount = 1
      ∧ exDupResponse.status = "error" ∧ exDupResponse.statusCode = 400)
    ∧ (((exDupResponse.status = "success" ∧ exDupResponse.statusCode = 201) ↔
          0 < exDupResponse.savedCount)
       ∧ ((exDupResponse.status = "error" ∧ exDupResponse.statusCode = 400) ↔
          exDupResponse.savedCount = 0)) :=
  ⟨⟨rfl, rfl, rfl, rfl, rfl⟩,
    C3_partial_success_framing [exChapterA] [] exDupInsert exDupResponse rfl⟩

/-- Claim C8.  An `insertMany` exception without a `writeErrors` property
(for example, the store unreachable) hits the `else throw bulkError` branch
and the outer catch, and is forwarded to `next(error)` unchanged: no
partial-success response is produced, so nothing is folded into the rejection
list. -/
theorem C8_fatal_error_propagates (valid : List Chapter) (invalid : List FailedEntry)
    (msg : String) (hv : 0 < valid.length) :
    createChapters valid invalid (.err (.other msg)) = Except.error (.other msg) := by
  unfold createChapters
  simp only [hv, if_pos]

/-- Witness for C8 at a concrete store-unreachable error. -/
theorem C8_witness :
    createChapters [exChapterA] [] (.err (.other "connect ECONNREFUSED")) =
      Except.error (.other "connect ECONNREFUSED") :=
  C8_fatal_error_propagates [exChapterA] [] "connect ECONNREFUSED" (by decide)

/-- Claim C10.  An empty JSON array body passes the `Array.isArray` shape
check of `validateChaptersArray` (the per-item loop runs zero times, so both
partitions are empty), and `createChapters` then skips the insert call
(`validChapters.length > 0` fails, whatever the store would have answered)
and responds savedCount 0, failedCount 0, status "error", HTTP 400. -/
theorem C10_empty_batch :
    validateChaptersArray (Json.arr []) = Except.ok ([], [])
    ∧ ∀ ins : InsertManyResult, createChapters [] [] ins = Except.ok
        { statusCode := 400, status := "error", message := "0 chapters saved successfully",
          savedCount := 0, failedCount := 0, savedChapters := [],
          failedChapters := none, cacheCleared := false } :=
  ⟨rfl, fun _ => rfl⟩

theorem partitionChaptersFrom_length (i : Nat) (l : List Json) :
    (partitionChaptersFrom i l).1.length + (partitionChaptersFrom i l).2.length = l.length := by
  induction l generalizing i with
  | nil => rfl
  | cons c rest ih =>
    simp only [partitionChaptersFrom]
    cases hcv : chapterValidate c with
    | ok value =>
      simp only [hcv]
      have := ih (i + 1)
      simp only [List.length_cons]
      omega
    | error errs =>
      simp only [hcv]
      have := ih (i + 1)
      simp only [List.length_cons]
      omega

theorem partitionChaptersFrom_idx_bounds (i : Nat) (l : List Json) :
    ∀ e ∈ (partitionChaptersFrom i l).2,
      i ≤ FailedEntry.idx e ∧ FailedEntry.idx e < i + l.length := by
  induction l generalizing i with
  | nil => intro e he; exact absurd he (by simp [partitionChaptersFrom])
  | cons c rest ih =>
    intro e he
    simp only [partitionChaptersFrom] at he
    cases hcv : chapterValidate c with
    | ok value =>
      rw [hcv] at he
      have := ih (i + 1) e he
      simp only [List.length_cons]
      omega
    | error errs =>
      rw [hcv] at he
      simp only [List.mem_cons] at he
      cases he with
      | inl h =>
        subst h
        simp only [FailedEntry.idx, List.length_cons]
        omega
      | inr h =>
        have := ih (i + 1) e h
        simp only [List.length_cons]
        omega

theorem partitionChaptersFrom_idx_sorted (i : Nat) (l : List Json) :
    (partitionChaptersFrom i l).2.Pairwise (fun a b => FailedEntry.idx a < FailedEntry.idx b) := by
  induction l generalizing i with
  | nil => simp [partitionChaptersFrom]
  | cons c rest ih =>
    simp only [partitionChaptersFrom]
    cases hcv : chapterValidate c with
    | ok value => exact ih (i + 1)
    | error errs =>
      refine List.Pairwise.cons ?_ (ih (i + 1))
      intro e he
      have := partitionChaptersFrom_idx_bounds (i + 1) rest e he
      simp only [FailedEntry.idx] at this ⊢
      omega

/-- Claim C5.  Batch validation places every input item in exactly one of the
two partitions — accepted plus rejected lengths equal the input length — and
the rejection entries carry pairwise-distinct index fields, each within the
bounds of the input list. -/
theorem C5_batch_partition (body : Json) (chapters : List Json)
    (valid : List Chapter) (invalid : List FailedEntry)
    (hbody : body = Json.arr chapters)
    (h : validateChaptersArray body = Except.ok (valid, invalid)) :
    valid.length + invalid.length = chapters.length
    ∧ ((invalid.map FailedEntry.idx).Nodup)
    ∧ ∀ e ∈ invalid, FailedEntry.idx e < chapters.length := by
  subst hbody
  unfold validateChaptersArray at h
  rw [Except.ok.injEq] at h
  obtain ⟨hv, hi⟩ : (partitionChaptersFrom 0 chapters).1 = valid ∧
      (partitionChaptersFrom 0 chapters).2 = invalid := by
    rw [h]
    exact ⟨rfl, rfl⟩
  subst hv
  subst hi
  refine ⟨partitionChaptersFrom_length 0 chapters, ?_, ?_⟩
  · have hs : ((partitionChaptersFrom 0 chapters).2.map FailedEntry.idx).Pairwise (· < ·) := by
      rw [List.pairwise_map]
      exact partitionChaptersFrom_idx_sorted 0 chapters
    exact hs.imp Nat.ne_of_lt
  · intro e he
    have := partitionChaptersFrom_idx_bounds 0 chapters e he
    omega

/-- Witness for C5 at a concrete two-item batch (one valid item, one invalid
item rejected at index 1). -/
theorem C5_witness :
    ([exChapterA] : List Chapter).length + ([exC5Invalid] : List FailedEntry).length =
      ([exGoodChapterJson, exBadChapterJson] : List Json).length
    ∧ ((([exC5Invalid] : List FailedEntry).map FailedEntry.idx).Nodup)
    ∧ ∀ e ∈ ([exC5Invalid] : List FailedEntry),
        FailedEntry.idx e < ([exGoodChapterJson, exBadChapterJson] : List Json).length :=
  C5_batch_partition exBatchJson [exGoodChapterJson, exBadChapterJson] [exChapterA] [exC5Invalid]
    rfl rfl

theorem yearWiseSum_eq_zero (y : YearWiseQuestionCount) : yearWiseSum y = 0 := rfl

/-- Claim C4.  The source builds the per-year field paths by mapping over
`Object.values(\x7b2019: 1, ..., 2025: 1\x7d)` — the seven property values, all
1, not the year keys — so every path is `$yearWiseQuestionCount.1`, a field no
stored document has: the guard sum is 0 for every record, every per-record
`$cond` yields its else branch 0, and the endpoint returns
`averageCompletionRate = 0` for every collection.  The claim's formula, which
the schema and the year literal one line above make the evident intent, gives
100/3 for the one-record collection `[exStatsDoc]` — the code is a slip
(values mapped instead of keys), the claim states the intent. -/
theorem C4_stats_always_zero :
    (∀ docs : List ChapterDoc, averageCompletionRate docs = 0)
    ∧ averageCompletionRate [exStatsDoc] = 0
    ∧ specAverageCompletionRate [exStatsDoc] = 100 / 3
    ∧ ((0 : ℚ) ≠ 100 / 3) := by
  have hzero : ∀ docs : List ChapterDoc, averageCompletionRate docs = 0 := by
    intro docs
    have hsum : (docs.map docCompletionRate).sum = 0 := by
      apply List.sum_eq_zero
      intro x hx
      obtain ⟨d, _, rfl⟩ := List.mem_map.mp hx
      unfold docCompletionRate
      rw [yearWiseSum_eq_zero]
      norm_num
    unfold averageCompletionRate avgCompletionRate
    by_cases h : docs.length = 0
    · rw [if_pos h, round_zero]
    · rw [if_neg h, hsum, zero_div, round_zero]
  refine ⟨hzero, hzero [exStatsDoc], ?_, by norm_num⟩
  norm_num [specAverageCompletionRate, specCompletionRate, specYearWiseSum, exStatsDoc]

/-- Claim C6.  The claim states the rejection's retry-after hint equals the
remaining time in the window.  Both handlers hardcode `retryAfter: 60`: for
the 31st general request arriving 30 seconds into its window, the remaining
window is 30 seconds but the structured error still carries 60. -/
theorem C6_counterexample :
    rateWindowHit rateLimiterWindowMs 30000 (some { windowStartMs := 0, count := 30 }) =
      exRateWindow
    ∧ rateLimitDecision rateLimiterMax rateLimiterHandlerBody exRateWindow =
        some (429, rateLimiterHandlerBody)
    ∧ rateLimiterHandlerBody.retryAfter = 60
    ∧ remainingWindowSec rateLimiterWindowMs 30000 exRateWindow = 30
    ∧ (60 : Nat) ≠ 30 :=
  ⟨rfl, rfl, rfl, rfl, by decide⟩

/-- Claim C6, amended.  For either identity kind (general IP key with ceiling
30, or admin_IP key with ceiling 100), a request whose window count exceeds
the ceiling is rejected with HTTP 429 and the configured structured error,
whose retry-after hint is the constant 60 — the full window length in
seconds — regardless of the time remaining in the window. -/
theorem C6_amended (ceiling : Nat) (body : RateLimitErrorBody) (w : RateWindow)
    (hconf : (ceiling = rateLimiterMax ∧ body = rateLimiterHandlerBody) ∨
             (ceiling = adminRateLimiterMax ∧ body = adminRateLimiterHandlerBody))
    (hexceed : ceiling < w.count) :
    rateLimitDecision ceiling body w = some (429, body) ∧ body.retryAfter = 60 := by
  constructor
  · unfold rateLimitDecision
    rw [if_pos hexceed]
  · rcases hconf with ⟨_, hb⟩ | ⟨_, hb⟩ <;> subst hb <;> rfl

/-- Witness for C6_amended: the general limiter at a window counting 31. -/
theorem C6_witness :
    rateLimitDecision rateLimiterMax rateLimiterHandlerBody exRateWindow =
      some (429, rateLimiterHandlerBody)
    ∧ rateLimiterHandlerBody.retryAfter = 60 :=
  C6_amended rateLimiterMax rateLimiterHandlerBody exRateWindow (Or.inl ⟨rfl, rfl⟩) (by decide)

theorem queryLookup_eq_of_perm (l1 l2 : List (String × String)) (hp : l1.Perm l2) (k : String) :
    (l1.map Prod.fst).Nodup → queryLookup l1 k = queryLookup l2 k := by
  induction hp with
  | nil => intro _; rfl
  | @cons x t1 t2 hperm ih =>
    intro hnd
    have hnd' : (t1.map Prod.fst).Nodup := by
      simpa using hnd.of_cons
    by_cases hx : x.1 == k
    · unfold queryLookup
      rw [List.find?_cons_of_pos (p := fun q : String × String => q.1 == k) _ hx, List.find?_cons_of_pos (p := fun q : String × String => q.1 == k) _ hx]
    · unfold queryLookup at ih ⊢
      rw [List.find?_cons_of_neg (p := fun q : String × String => q.1 == k) _ hx, List.find?_cons_of_neg (p := fun q : String × String => q.1 == k) _ hx]
      exact ih hnd'
  | @swap x y t =>
    intro hnd
    have hxy : y.1 ≠ x.1 := by
      simp only [List.map_cons, List.nodup_cons, List.mem_cons] at hnd
      exact fun h => hnd.1 (Or.inl h)
    unfold queryLookup
    by_cases hx : x.1 == k <;> by_cases hy : y.1 == k
    · exact absurd (by rw [eq_of_beq hy, eq_of_beq hx]) hxy
    · rw [List.find?_cons_of_neg (p := fun q : String × String => q.1 == k) _ hy, List.find?_cons_of_pos (p := fun q : String × String => q.1 == k) _ hx,
        List.find?_cons_of_pos (p := fun q : String × String => q.1 == k) _ hx]
    · rw [List.find?_cons_of_pos (p := fun q : String × String => q.1 == k) _ hy, List.find?_cons_of_neg (p := fun q : String × String => q.1 == k) _ hx,
        List.find?_cons_of_pos (p := fun q : String × String => q.1 == k) _ hy]
    · rw [List.find?_cons_of_neg (p := fun q : String × String => q.1 == k) _ hy, List.find?_cons_of_neg (p := fun q : String × String => q.1 == k) _ hx,
        List.find?_cons_of_neg (p := fun q : String × String => q.1 == k) _ hx, List.find?_cons_of_neg (p := fun q : String × String => q.1 == k) _ hy]
  | trans h1 h2 ih1 ih2 =>
    intro hnd
    have hnd2 := (h1.map Prod.fst).nodup_iff.mp hnd
    exact (ih1 hnd).trans (ih2 hnd2)

theorem sortedQueryKeys_eq_of_perm (l1 l2 : List (String × String)) (hp : l1.Perm l2) :
    sortedQueryKeys l1 = sortedQueryKeys l2 := by
  unfold sortedQueryKeys
  exact List.eq_of_perm_of_sorted
    ((List.perm_insertionSort _ _).trans ((hp.map Prod.fst).trans
      (List.perm_insertionSort _ _).symm))
    (List.sorted_insertionSort _ _) (List.sorted_insertionSort _ _)

/-- Claim C7.  Two GET requests with the same method and path whose
query-parameter objects are equal as key-value mappings (a permutation of each
other's entries; keys of a parsed-query object are pairwise distinct) produce
the identical cache key: the key is rebuilt from the sorted key list and the
per-key lookups, both of which are order-independent. -/
theorem C7_cache_key_determinism (r1 r2 : CacheRequest)
    (hm1 : r1.method = "GET") (hm2 : r2.method = "GET") (hpath : r1.path = r2.path)
    (hnd : (r1.query.map Prod.fst).Nodup)
    (hq : r1.query.Perm r2.query) :
    generateCacheKey r1 = generateCacheKey r2 := by
  unfold generateCacheKey
  rw [hm1, hm2, hpath, hq.length_eq]
  have hmap : (sortedQueryKeys r1.query).map (fun k => (k, queryLookup r1.query k)) =
      (sortedQueryKeys r2.query).map (fun k => (k, queryLookup r2.query k)) := by
    rw [sortedQueryKeys_eq_of_perm _ _ hq]
    exact List.map_congr_left (fun k _ => by
      rw [queryLookup_eq_of_perm _ _ hq k hnd])
  rw [hmap]

/-- Witness for C7 at a concrete pair of reordered queries. -/
theorem C7_witness : generateCacheKey exReq1 = generateCacheKey exReq2 :=
  C7_cache_key_determinism exReq1 exReq2 rfl rfl rfl (by decide) (by decide)

theorem globMatch_star (s : List Char) : globMatch ['*'] s = true := by
  induction s with
  | nil => simp [globMatch]
  | cons c t ih => simp [globMatch, ih]

theorem globMatch_chapters (r : List Char) :
    globMatch "chapters:*".data ("chapters:".data ++ r) = true := by
  have h1 : "chapters:*".data =
      'c' :: 'h' :: 'a' :: 'p' :: 't' :: 'e' :: 'r' :: 's' :: ':' :: '*' :: [] := rfl
  have h2 : "chapters:".data =
      'c' :: 'h' :: 'a' :: 'p' :: 't' :: 'e' :: 'r' :: 's' :: ':' :: [] := rfl
  rw [h1, h2]
  simp only [List.cons_append, List.nil_append]
  simp [globMatch, globMatch_star]

theorem generateCacheKey_prefix (req : CacheRequest) :
    ∃ rest, generateCacheKey req = "chapters:" ++ rest := by
  unfold generateCacheKey
  by_cases hc : req.method = "GET" ∧ 0 < req.query.length
  · refine ⟨req.method ++ (":" ++ (req.path ++ ("?" ++ String.intercalate "&"
      (((sortedQueryKeys req.query).map (fun k => (k, queryLookup req.query k))).map
        (fun p => formUrlEncode p.1 ++ "=" ++ formUrlEncode p.2))))), ?_⟩
    rw [if_pos hc]
    simp [String.append_assoc]
  · refine ⟨req.method ++ (":" ++ req.path), ?_⟩
    rw [if_neg hc]
    simp [String.append_assoc]

/-- Claim C9.  Every cache key the read-path middleware can write starts with
the `chapters:` namespace marker, is matched by the `chapters:*` glob pattern
that `clearChapterCache` passes to the bulk delete, and is therefore absent
from the cache once the invalidation has completed. -/
theorem C9_cache_namespace (req : CacheRequest) (keys : List String) :
    (∃ rest, generateCacheKey req = "chapters:" ++ rest)
    ∧ globMatch chapterCachePattern.data (generateCacheKey req).data = true
    ∧ generateCacheKey req ∉ clearChapterCache keys := by
  obtain ⟨rest, hrest⟩ := generateCacheKey_prefix req
  have hmatch : globMatch chapterCachePattern.data (generateCacheKey req).data = true := by
    rw [hrest, String.data_append]
    exact globMatch_chapters rest.data
  refine ⟨⟨rest, hrest⟩, hmatch, ?_⟩
  intro hmem
  unfold clearChapterCache delPattern at hmem
  rw [List.mem_filter] at hmem
  rw [hmatch] at hmem
  simp at hmem
